import Mathlib

/-!
Shallow embedding of the AdaptLearning exam subsystem
(`src/exams/views.py`, `src/exams/serializers.py`).

The Django model module is not among the given sources; the record fields
below are taken from the serializer field lists and from the attribute
accesses in the views.  Parts of the behaviour that live only in the absent
models module (field defaults at attempt creation, the scoring/save step of
submission) are modelled from the specification and carry a doc comment
starting with "Modelled from the spec:".
-/

namespace AdaptLearning

/-- A user of the platform: `request.user`, with a `user_type` role string
as the views compare it against the strings "teacher" and "student". -/
structure User where
  id : Nat
  user_type : String
deriving DecidableEq

/-- A course: an instructor (user id) and the enrolled students
(`course.instructor`, `course.students`). -/
structure Course where
  id : Nat
  instructor : Nat
  students : List Nat
deriving DecidableEq

/-- A choice of a question; fields per `ChoiceSerializer`
(`id`, `choice_text`, `is_correct`). -/
structure Choice where
  id : Nat
  choice_text : String
  is_correct : Bool
deriving DecidableEq

/-- A question; fields per `QuestionSerializer`
(`id`, `question_text`, `question_type`, `marks`, `order`, `choices`). -/
structure Question where
  id : Nat
  question_text : String
  question_type : String
  marks : Nat
  order : Nat
  choices : List Choice
deriving DecidableEq

/-- An exam; fields per `ExamCreateSerializer` plus the nested relations
the views use (`exam.course`, `exam.questions`, `exam.passing_marks`). -/
structure Exam where
  id : Nat
  title : String
  total_marks : Nat
  passing_marks : Nat
  is_published : Bool
  course : Course
  questions : List Question
deriving DecidableEq

/-- An exam attempt; fields per `ExamAttemptSerializer`
(`id`, `exam`, `student`, `score`, `is_completed`) plus the
`submitted_at` timestamp the analytics view filters on.  `score` is
nullable until scored. -/
structure ExamAttempt where
  id : Nat
  exam_id : Nat
  student : Nat
  score : Option Nat
  is_completed : Bool
  submitted_at : Option Nat
deriving DecidableEq

/-- The error taxonomy of the spec, as the views surface failures:
`PermissionDenied` / 403 responses are `PermissionError`, the 400
"already been completed" response is `InvalidStateError`, serializer
rejections are `ValidationError` with their message, queryset misses
are `NotFoundError`. -/
inductive ApiError where
  | PermissionError
  | InvalidStateError
  | ValidationError (msg : String)
  | NotFoundError
deriving DecidableEq

/-- One submitted answer; fields per `AnswerSerializer`
(`question` foreign-key id, `answer_text`). -/
structure AnswerIn where
  question : Nat
  answer_text : String
deriving DecidableEq

/-! ### Serialized output shapes (`ChoiceSerializer`, `QuestionSerializer`,
`ExamSerializer`) -/

/-- Output row of `ChoiceSerializer`: the fields id, choice_text, is_correct. -/
structure ChoiceOut where
  id : Nat
  choice_text : String
  is_correct : Bool
deriving DecidableEq

def serializeChoice (c : Choice) : ChoiceOut :=
  { id := c.id, choice_text := c.choice_text, is_correct := c.is_correct }

/-- Output row of `QuestionSerializer`, with nested serialized choices. -/
structure QuestionOut where
  id : Nat
  question_text : String
  question_type : String
  marks : Nat
  order : Nat
  choices : List ChoiceOut
deriving DecidableEq

def serializeQuestion (q : Question) : QuestionOut :=
  { id := q.id, question_text := q.question_text, question_type := q.question_type,
    marks := q.marks, order := q.order, choices := q.choices.map serializeChoice }

/-- Output row of `ExamSerializer` (all model fields with nested
questions); the course is serialized by id here. -/
structure ExamOut where
  id : Nat
  title : String
  total_marks : Nat
  passing_marks : Nat
  is_published : Bool
  course_id : Nat
  questions : List QuestionOut
deriving DecidableEq

def serializeExam (e : Exam) : ExamOut :=
  { id := e.id, title := e.title, total_marks := e.total_marks,
    passing_marks := e.passing_marks, is_published := e.is_published,
    course_id := e.course.id, questions := e.questions.map serializeQuestion }

/-- From `ExamListView.get_queryset`: teachers see exams of courses they
instruct, students see exams of courses they are enrolled in, anyone
else sees none. -/
def examListQueryset (user : User) (exams : List Exam) : List Exam :=
  if user.user_type = "teacher" then
    exams.filter (fun e => decide (e.course.instructor = user.id))
  else if user.user_type = "student" then
    exams.filter (fun e => decide (user.id ∈ e.course.students))
  else []

/-- The `ExamListView` list response: the queryset serialized by `ExamSerializer`. -/
def examList (user : User) (exams : List Exam) : List ExamOut :=
  (examListQueryset user exams).map serializeExam

/-! ### Submission validation (`ExamSubmissionSerializer.validate`) -/

/-- The Python set of submitted question ids, built from the answers list. -/
def answeredQuestionIds (answers : List AnswerIn) : Finset Nat :=
  (answers.map (fun a => a.question)).toFinset

/-- The Python set of question ids of the exam. -/
def examQuestionIds (exam : Exam) : Finset Nat :=
  (exam.questions.map (fun q => q.id)).toFinset

/-- From `ExamSubmissionSerializer.validate`: accepts the data iff the set of
answered question ids equals the set of question ids of the exam, else
raises `ValidationError("All questions must be answered.")`. -/
def submissionValidate (exam : Exam) (answers : List AnswerIn) :
    Except String (List AnswerIn) :=
  if answeredQuestionIds answers = examQuestionIds exam then Except.ok answers
  else Except.error "All questions must be answered."

/-! ### Scoring and the submission save step -/

/-- Modelled from the spec: the Scoring Engine (spec §4.2) lives in the
absent models module / submission-serializer `create`; per the spec, each
question awards its full `marks` when the submitted answer matches the
correct choice of the question exactly (text compared by exact match, the base
policy), else 0, summed across questions. -/
def scoreSubmission (exam : Exam) (answers : List AnswerIn) : Nat :=
  (exam.questions.map (fun q =>
    if answers.any (fun a => decide (a.question = q.id) &&
        q.choices.any (fun c => c.is_correct && decide (c.choice_text = a.answer_text)))
    then q.marks else 0)).sum

/-- Modelled from the spec: the save step of Submit (spec §4.1) — persist
the answers, invoke the Scoring Engine, mark the attempt Completed and
stamp its submission time — is in the absent models module / serializer
`create`; the views only call `serializer.save()` and then
`attempt.refresh_from_db()`. -/
def completeAttempt (exam : Exam) (attempt : ExamAttempt)
    (answers : List AnswerIn) (now : Nat) : ExamAttempt :=
  { attempt with
    is_completed := true
    score := some (scoreSubmission exam answers)
    submitted_at := some now }

deriving instance DecidableEq for Except

/-- The 201 response body of `ExamSubmissionView.create`:
`score`, `totalQuestions`, `passingScore`, `attemptId`. -/
structure SubmitResult where
  score : Option Nat
  totalQuestions : Nat
  passingScore : Nat
  attemptId : Nat
deriving DecidableEq

/-- From `ExamSubmissionView.create`, over the attempt record fetched for the
request (`exam` is `attempt.exam`): ownership check (403), completion
guard (400), serializer validation, then the save step followed by the
201 response read back from the refreshed attempt.  Returns the attempt
record as left after the call, paired with the response. -/
def submitAttempt (user : User) (exam : Exam) (attempt : ExamAttempt)
    (answers : List AnswerIn) (now : Nat) :
    ExamAttempt × Except ApiError SubmitResult :=
  if attempt.student ≠ user.id then
    (attempt, Except.error ApiError.PermissionError)
  else if attempt.is_completed then
    (attempt, Except.error ApiError.InvalidStateError)
  else
    match submissionValidate exam answers with
    | Except.error m => (attempt, Except.error (ApiError.ValidationError m))
    | Except.ok _ =>
      let attempt' := completeAttempt exam attempt answers now
      (attempt', Except.ok
        { score := attempt'.score
          totalQuestions := exam.questions.length
          passingScore := exam.passing_marks
          attemptId := attempt'.id })

/-! ### Attempt creation (`ExamAttemptView.perform_create`) -/

/-- Modelled from the spec: the field defaults of the `ExamAttempt` model are in
the absent models module; per spec §4.1 Start, a fresh attempt is
InProgress (not completed) with `score = null` and no submission time. -/
def newAttempt (user : User) (exam : Exam) (newId : Nat) : ExamAttempt :=
  { id := newId, exam_id := exam.id, student := user.id,
    score := none, is_completed := false, submitted_at := none }

/-- From `ExamAttemptView.perform_create`: saves a fresh attempt for the
requesting user when they are enrolled in the course of the exam
(`exam.course.students.filter(id=user.id).exists()`), else raises
`PermissionDenied`. -/
def examAttemptPerformCreate (user : User) (exam : Exam) (newId : Nat) :
    Except ApiError ExamAttempt :=
  if user.id ∈ exam.course.students then
    Except.ok (newAttempt user exam newId)
  else
    Except.error ApiError.PermissionError

/-! ### Exam-management authorization checks -/

/-- From `ExamListView.perform_create`: denies unless the requesting user is the
instructor of the target course; no role check. -/
def examListPerformCreate (user : User) (course : Course) : Except ApiError Unit :=
  if course.instructor ≠ user.id then Except.error ApiError.PermissionError
  else Except.ok ()

/-- From `ExamCreateView.perform_create`: denies unless the requesting user has
the teacher role, then saves with the course id from the URL; the
instructor of the course is never compared with the user. -/
def examCreatePerformCreate (user : User) (course : Course) : Except ApiError Unit :=
  if user.user_type ≠ "teacher" then Except.error ApiError.PermissionError
  else Except.ok ()

/-- From `StaffExamCreateView.perform_create`: requires the teacher role and
that the instructor of the resolved course is the requesting user. -/
def staffExamCreatePerformCreate (user : User) (course : Course) :
    Except ApiError Unit :=
  if user.user_type ≠ "teacher" then Except.error ApiError.PermissionError
  else if course.instructor ≠ user.id then Except.error ApiError.PermissionError
  else Except.ok ()

/-- From `StaffExamUpdateView.get_object` and `StaffExamDeleteView.get_object`:
yield the exam only when the user has the teacher role and instructs the
course of the exam, else a 403 response. -/
def staffExamMutateGetObject (user : User) (exam : Exam) : Except ApiError Exam :=
  if user.user_type ≠ "teacher" ∨ exam.course.instructor ≠ user.id then
    Except.error ApiError.PermissionError
  else Except.ok exam

/-- From `ExamUpdateView.get_queryset` and `ExamDeleteView.get_queryset`: only
exams of courses the user instructs; no role check. -/
def examUpdateQueryset (user : User) (exams : List Exam) : List Exam :=
  exams.filter (fun e => decide (e.course.instructor = user.id))

/-- Object resolution for `ExamUpdateView` / `ExamDeleteView`: a lookup by
pk inside the instructor-filtered queryset, so a non-instructor gets a 404
(`NotFoundError`), not a permission failure. -/
def examUpdateGetObject (user : User) (exams : List Exam) (pk : Nat) :
    Except ApiError Exam :=
  match (examUpdateQueryset user exams).find? (fun e => decide (e.id = pk)) with
  | some e => Except.ok e
  | none => Except.error ApiError.NotFoundError

/-! ### Analytics (`StaffExamAnalyticsView.get`) -/

/-- The analytics response body. -/
structure AnalyticsOut where
  total_attempts : Nat
  completed_attempts : Nat
  average_score : ℚ
  passing_rate : ℚ
deriving DecidableEq

/-- The filter `submitted_at__isnull=False`. -/
def isSubmitted (a : ExamAttempt) : Bool := a.submitted_at.isSome

/-- The filter `score__gte=p`: a SQL comparison on a nullable column, false when the
score is null. -/
def scoreAtLeast (p : Nat) (a : ExamAttempt) : Bool :=
  match a.score with
  | some s => decide (p ≤ s)
  | none => false

/-- From `StaffExamAnalyticsView.get`: after the teacher/instructor gate, over
the attempts of the exam it reports the total count, the count of attempts with
a submission time, the average of the non-null scores of those (`Avg`
ignores nulls; `or 0` turns an empty aggregate into 0), and
`passing_rate = attempts.filter(score__gte=passing_marks).count() /
completed * 100` when `completed > 0`, else 0 — note the numerator ranges
over all attempts of the exam, not only the completed ones. -/
def staffExamAnalytics (user : User) (exam : Exam)
    (attempts : List ExamAttempt) : Except ApiError AnalyticsOut :=
  if user.user_type ≠ "teacher" ∨ exam.course.instructor ≠ user.id then
    Except.error ApiError.PermissionError
  else
    let atts := attempts.filter (fun a => decide (a.exam_id = exam.id))
    let completedList := atts.filter isSubmitted
    let scores := completedList.filterMap (fun a => a.score)
    Except.ok
      { total_attempts := atts.length
        completed_attempts := completedList.length
        average_score := if scores = [] then 0 else (scores.sum : ℚ) / scores.length
        passing_rate :=
          if 0 < completedList.length then
            ((atts.filter (scoreAtLeast exam.passing_marks)).length : ℚ)
              / completedList.length * 100
          else 0 }

/-- The passing rate as the spec words it: completed attempts with score at
least `passing_marks`, over the completed attempts, times 100 (0 when none
are completed).  Stated for comparison with `staffExamAnalytics`. -/
def specPassingRate (exam : Exam) (attempts : List ExamAttempt) : ℚ :=
  let completedList :=
    (attempts.filter (fun a => decide (a.exam_id = exam.id))).filter isSubmitted
  if 0 < completedList.length then
    ((completedList.filter (scoreAtLeast exam.passing_marks)).length : ℚ)
      / completedList.length * 100
  else 0

/-- The passing rate the code actually computes, worded as the amended
claim: attempts of the exam (completed or not) whose non-null score is at
least `passing_marks`, over the completed attempts, times 100. -/
def amendedPassingRate (exam : Exam) (attempts : List ExamAttempt) : ℚ :=
  let atts := attempts.filter (fun a => decide (a.exam_id = exam.id))
  let completed := (atts.filter isSubmitted).length
  if 0 < completed then
    ((atts.filter (scoreAtLeast exam.passing_marks)).length : ℚ) / completed * 100
  else 0

/-! ### Two concurrent submissions on one attempt

`ExamSubmissionView.create` fetches the attempt (`ExamAttempt.objects.get`),
checks `attempt.is_completed` on that snapshot, and only later writes via
`serializer.save()`; the fetch, the check and the write are separate
statements with no transaction or row lock around them, so two requests may
interleave.  Each request is modelled as two phases against a shared
attempt row: a read phase that snapshots the row, and a commit phase that
runs the checks on the snapshot and, on success, writes the completed row
and answers the 201 response. -/

/-- The commit phase of one request: the checks of the view evaluated on the
snapshot `la` taken at read time, the write applied to the shared row on
success. -/
def commitStep (u : User) (e : Exam) (ans : List AnswerIn) (now : Nat)
    (la : ExamAttempt) (db : ExamAttempt) :
    ExamAttempt × Except ApiError SubmitResult :=
  if la.student ≠ u.id then
    (db, Except.error ApiError.PermissionError)
  else if la.is_completed then
    (db, Except.error ApiError.InvalidStateError)
  else
    match submissionValidate e ans with
    | Except.error m => (db, Except.error (ApiError.ValidationError m))
    | Except.ok _ =>
      let db' := completeAttempt e la ans now
      (db', Except.ok
        { score := db'.score
          totalQuestions := e.questions.length
          passingScore := e.passing_marks
          attemptId := db'.id })

/-- Shared state of two in-flight submissions: the stored attempt row, each
request snapshot (`none` before its read), and each request response
(`none` before its commit). -/
structure ConcState where
  db : ExamAttempt
  snap1 : Option ExamAttempt
  snap2 : Option ExamAttempt
  res1 : Option (Except ApiError SubmitResult)
  res2 : Option (Except ApiError SubmitResult)

/-- Which request the scheduler runs next. -/
inductive Pid where
  | p1
  | p2
deriving DecidableEq

/-- One scheduler step: the chosen request performs its next pending phase
(read, then commit); a finished request does nothing. -/
def concStep (u : User) (e : Exam) (ans : List AnswerIn) (now : Nat)
    (s : ConcState) (p : Pid) : ConcState :=
  match p with
  | Pid.p1 =>
    match s.snap1, s.res1 with
    | none, _ => { s with snap1 := some s.db }
    | some la, none =>
      let (db', r) := commitStep u e ans now la s.db
      { s with db := db', res1 := some r }
    | some _, some _ => s
  | Pid.p2 =>
    match s.snap2, s.res2 with
    | none, _ => { s with snap2 := some s.db }
    | some la, none =>
      let (db', r) := commitStep u e ans now la s.db
      { s with db := db', res2 := some r }
    | some _, some _ => s

/-- Run both requests (same user, same answers — a double submit) under a
schedule, starting from the stored attempt `a0`. -/
def runSched (u : User) (e : Exam) (ans : List AnswerIn) (now : Nat)
    (a0 : ExamAttempt) (sched : List Pid) : ConcState :=
  sched.foldl (concStep u e ans now)
    { db := a0, snap1 := none, snap2 := none, res1 := none, res2 := none }

/-! ### Concrete fixtures -/

/-- The instructor of the fixture course. -/
def instructorW : User := ⟨1, "teacher"⟩

/-- A student enrolled in the fixture course. -/
def studentW : User := ⟨2, "student"⟩

/-- A course instructed by user 1 with user 2 enrolled. -/
def courseW : Course := ⟨10, 1, [2]⟩

/-- A 5-mark single-choice question whose correct choice is "A". -/
def q1W : Question := ⟨1, "Q1", "single_choice", 5, 1, [⟨100, "A", true⟩, ⟨101, "B", false⟩]⟩

/-- A 10-mark single-choice question whose correct choice is "C". -/
def q2W : Question := ⟨2, "Q2", "single_choice", 10, 2, [⟨102, "C", true⟩, ⟨103, "D", false⟩]⟩

/-- A published exam on the fixture course: two questions, 15 total marks,
passing mark 8. -/
def examW : Exam := ⟨20, "Midterm", 15, 8, true, courseW, [q1W, q2W]⟩

/-- A fresh in-progress attempt by student 2 on the fixture exam. -/
def attemptW : ExamAttempt := ⟨7, 20, 2, none, false, none⟩

/-- A fully correct submission for the fixture exam. -/
def answersW : List AnswerIn := [⟨1, "A"⟩, ⟨2, "C"⟩]

/-- The fixture attempt after a successful fully-correct submission at
time 1. -/
def attemptDoneW : ExamAttempt := ⟨7, 20, 2, some 15, true, some 1⟩

/-- Four completed attempts on the fixture exam with scores 10, 9, 8, 4 —
three at or above the passing mark 8. -/
def fourCompletedW : List ExamAttempt :=
  [⟨41, 20, 2, some 10, true, some 1⟩, ⟨42, 20, 3, some 9, true, some 2⟩,
   ⟨43, 20, 2, some 8, true, some 3⟩, ⟨44, 20, 3, some 4, true, some 4⟩]

/-- One completed attempt scoring 4 (below the passing mark 8) and one
incomplete attempt with a recorded score of 9 (at or above it). -/
def mixedAttemptsW : List ExamAttempt :=
  [⟨31, 20, 2, some 4, true, some 5⟩, ⟨32, 20, 2, some 9, false, none⟩]

/-! ### Theorems -/

/-- C1: `submitAttempt` is single-fire — after a first successful submit on
an attempt, a second submit on the resulting attempt yields
`InvalidStateError`, never re-scores, and leaves the score of the attempt
unchanged. -/
theorem submitAttempt_single_fire (u : User) (e : Exam) (a a1 : ExamAttempt)
    (ans1 ans2 : List AnswerIn) (n1 n2 : Nat) (r : SubmitResult)
    (h : submitAttempt u e a ans1 n1 = (a1, Except.ok r)) :
    submitAttempt u e a1 ans2 n2 = (a1, Except.error ApiError.InvalidStateError) ∧
    (submitAttempt u e a1 ans2 n2).1.score = a1.score := by
  by_cases hstu : a.student = u.id
  · by_cases hc : a.is_completed
    · simp [submitAttempt, hstu, hc] at h
    · cases hv : submissionValidate e ans1 with
      | error m => simp [submitAttempt, hstu, hc, hv] at h
      | ok val =>
        simp only [submitAttempt, hstu, hc, hv, ne_eq, not_true_eq_false,
          if_false, Bool.false_eq_true, if_true, Prod.mk.injEq] at h
        obtain ⟨ha1, -⟩ := h
        subst ha1
        have hmain : submitAttempt u e (completeAttempt e a ans1 n1) ans2 n2
            = (completeAttempt e a ans1 n1, Except.error ApiError.InvalidStateError) := by
          simp [submitAttempt, completeAttempt, hstu]
        exact ⟨hmain, by rw [hmain]⟩
  · simp [submitAttempt, hstu] at h

/-- C1 witness: on the fixture attempt the first submit succeeds with score
15 and the second yields `InvalidStateError` with the score untouched. -/
theorem submitAttempt_single_fire_witness :
    submitAttempt studentW examW attemptDoneW answersW 2
      = (attemptDoneW, Except.error ApiError.InvalidStateError) ∧
    (submitAttempt studentW examW attemptDoneW answersW 2).1.score = attemptDoneW.score :=
  submitAttempt_single_fire studentW examW attemptW attemptDoneW answersW answersW 1 2
    ⟨some 15, 2, 8, 7⟩ (by decide)

/-- C7: whatever the submitted answers, `submitAttempt` by a user other
than the owning student of the attempt fails with `PermissionError`. -/
theorem submitAttempt_ownership_required (u : User) (e : Exam) (a : ExamAttempt)
    (ans : List AnswerIn) (now : Nat) (h : a.student ≠ u.id) :
    submitAttempt u e a ans now = (a, Except.error ApiError.PermissionError) := by
  simp [submitAttempt, h]

/-- C7 witness: the instructor (not the student of the attempt) submitting the
fixture attempt is denied. -/
theorem submitAttempt_ownership_required_witness :
    submitAttempt instructorW examW attemptW answersW 1
      = (attemptW, Except.error ApiError.PermissionError) :=
  submitAttempt_ownership_required instructorW examW attemptW answersW 1 (by decide)

/-- C3 counterexample: a submission missing a question id is rejected, but
the `ValidationError` carries the fixed message "All questions must be
answered.", which contains no digit and hence lists no missing or extra
question id. -/
theorem validation_error_message_lists_no_ids :
    submitAttempt studentW examW attemptW [⟨1, "A"⟩] 1
      = (attemptW, Except.error (ApiError.ValidationError "All questions must be answered.")) ∧
    ("All questions must be answered.".data.all (fun ch => !ch.isDigit)) = true := by
  exact ⟨by decide, by decide⟩

/-- C3 amended: for an owned, not-yet-completed attempt, whenever the
submitted question-id set differs from the question-id set of the exam (missing
or extra ids), `submitAttempt` fails with `ValidationError` carrying the
fixed message "All questions must be answered." (the ids are not listed). -/
theorem submitAttempt_incomplete_set_validation_error (u : User) (e : Exam)
    (a : ExamAttempt) (ans : List AnswerIn) (now : Nat)
    (hown : a.student = u.id) (hc : a.is_completed = false)
    (hne : answeredQuestionIds ans ≠ examQuestionIds e) :
    submitAttempt u e a ans now
      = (a, Except.error (ApiError.ValidationError "All questions must be answered.")) := by
  simp [submitAttempt, hown, hc, submissionValidate, hne]

/-- C3 witness: a submission with a missing id and one with an extra id
are both rejected with the fixed validation message. -/
theorem submitAttempt_incomplete_set_validation_error_witness :
    submitAttempt studentW examW attemptW [⟨1, "A"⟩] 1
      = (attemptW, Except.error (ApiError.ValidationError "All questions must be answered.")) ∧
    submitAttempt studentW examW attemptW [⟨1, "A"⟩, ⟨2, "C"⟩, ⟨3, "E"⟩] 1
      = (attemptW, Except.error (ApiError.ValidationError "All questions must be answered.")) :=
  ⟨submitAttempt_incomplete_set_validation_error studentW examW attemptW [⟨1, "A"⟩] 1
      (by decide) (by decide) (by decide),
   submitAttempt_incomplete_set_validation_error studentW examW attemptW
      [⟨1, "A"⟩, ⟨2, "C"⟩, ⟨3, "E"⟩] 1 (by decide) (by decide) (by decide)⟩

/-- C10: the completeness check compares question ids as sets, ignoring
multiplicity — every submission containing multiple answer entries for the
same question (its question-id list has a repeat) passes validation
whenever its question-id set equals the question-id set of the exam. -/
theorem submissionValidate_ignores_multiplicity (e : Exam) (ans : List AnswerIn)
    (hdup : ¬ (ans.map (fun a => a.question)).Nodup)
    (h : answeredQuestionIds ans = examQuestionIds e) :
    submissionValidate e ans = Except.ok ans := by
  simp [submissionValidate, h]

/-- C10 witness: a submission answering question 1 twice with different
texts validates, as does one repeating an identical entry for question 2. -/
theorem submissionValidate_ignores_multiplicity_witness :
    submissionValidate examW [⟨1, "A"⟩, ⟨1, "B"⟩, ⟨2, "C"⟩]
      = Except.ok [⟨1, "A"⟩, ⟨1, "B"⟩, ⟨2, "C"⟩] ∧
    submissionValidate examW [⟨1, "A"⟩, ⟨2, "C"⟩, ⟨2, "C"⟩]
      = Except.ok [⟨1, "A"⟩, ⟨2, "C"⟩, ⟨2, "C"⟩] :=
  ⟨submissionValidate_ignores_multiplicity examW [⟨1, "A"⟩, ⟨1, "B"⟩, ⟨2, "C"⟩]
      (by decide) (by decide),
   submissionValidate_ignores_multiplicity examW [⟨1, "A"⟩, ⟨2, "C"⟩, ⟨2, "C"⟩]
      (by decide) (by decide)⟩

/-- C2 counterexample: with one completed attempt scoring below the passing
mark and one incomplete attempt whose recorded score is at or above it, the
analytics view reports a passing rate of 100, while the formula of the spec
(completed passing attempts over completed attempts) gives 0 — the
incomplete attempt contributes to the numerator. -/
theorem passing_rate_counts_incomplete_attempts :
    staffExamAnalytics instructorW examW mixedAttemptsW
      = Except.ok ⟨2, 1, 4, 100⟩ ∧
    specPassingRate examW mixedAttemptsW = 0 ∧
    (100 : ℚ) ≠ 0 := by
  refine ⟨?_, ?_, by norm_num⟩
  · simp [staffExamAnalytics, instructorW, examW, courseW, mixedAttemptsW,
      isSubmitted, scoreAtLeast]
  · simp [specPassingRate, examW, courseW, mixedAttemptsW, isSubmitted, scoreAtLeast]

/-- C2 amended: the passing rate the analytics view returns counts, in the
numerator, every attempt of the exam with a non-null score at or above
`passing_marks` — completed or not — divided by the number of completed
attempts, times 100 (0 when none are completed). -/
theorem staffExamAnalytics_passing_rate_amended (u : User) (e : Exam)
    (attempts : List ExamAttempt) (out : AnalyticsOut)
    (hok : staffExamAnalytics u e attempts = Except.ok out) :
    out.passing_rate = amendedPassingRate e attempts := by
  unfold staffExamAnalytics at hok
  split at hok
  · simp at hok
  · simp only [Except.ok.injEq] at hok
    subst hok
    rfl

/-- C2 amended witness: on four completed attempts with three at or above
the passing mark (and no other attempts) the rate is 75, matching the
worked example of the spec. -/
theorem staffExamAnalytics_passing_rate_amended_witness :
    AnalyticsOut.passing_rate ⟨4, 4, 31 / 4, 75⟩ = amendedPassingRate examW fourCompletedW ∧
    amendedPassingRate examW fourCompletedW = 75 :=
  ⟨staffExamAnalytics_passing_rate_amended instructorW examW fourCompletedW
      ⟨4, 4, 31 / 4, 75⟩
      (by simp [staffExamAnalytics, instructorW, examW, courseW, fourCompletedW,
        isSubmitted, scoreAtLeast]; norm_num),
   by
     simp [amendedPassingRate, examW, courseW, fourCompletedW, isSubmitted, scoreAtLeast]
     norm_num⟩

/-- C4 counterexample: `ExamCreateView.perform_create` lets a teacher who
is not the instructor of the course create an exam on that course, so the
both-conditions rule does not hold for every exam-management mutation. -/
theorem examCreate_allows_non_instructor_teacher :
    examCreatePerformCreate ⟨5, "teacher"⟩ courseW = Except.ok () ∧
    courseW.instructor ≠ (5 : Nat) := by
  exact ⟨by decide, by decide⟩

/-- C4 amended: the mutation endpoints enforce differing checks —
`ExamCreateView` requires only the teacher role, the create of `ExamListView`
requires only course instructorship, the staff create/update/delete
endpoints require both, and `ExamUpdateView`/`ExamDeleteView` answer a
non-instructor with `NotFoundError` (a queryset miss), not
`PermissionError`. -/
theorem exam_management_authorization_characterization :
    (∀ (u : User) (c : Course),
      examCreatePerformCreate u c = Except.ok () ↔ u.user_type = "teacher") ∧
    (∀ (u : User) (c : Course),
      examListPerformCreate u c = Except.ok () ↔ c.instructor = u.id) ∧
    (∀ (u : User) (c : Course),
      staffExamCreatePerformCreate u c = Except.ok () ↔
        u.user_type = "teacher" ∧ c.instructor = u.id) ∧
    (∀ (u : User) (e : Exam),
      staffExamMutateGetObject u e = Except.ok e ↔
        u.user_type = "teacher" ∧ e.course.instructor = u.id) ∧
    (∀ (u : User) (exams : List Exam) (pk : Nat),
      (∀ e2 ∈ exams, e2.course.instructor ≠ u.id) →
        examUpdateGetObject u exams pk = Except.error ApiError.NotFoundError) := by
  refine ⟨?_, ?_, ?_, ?_, ?_⟩
  · intro u c
    unfold examCreatePerformCreate
    split_ifs with h
    · simp [h]
    · rw [not_not] at h
      simp [h]
  · intro u c
    unfold examListPerformCreate
    split_ifs with h
    · simp [h]
    · rw [not_not] at h
      simp [h]
  · intro u c
    unfold staffExamCreatePerformCreate
    split_ifs with h1 h2
    · simp [h1]
    · rw [not_not] at h1
      simp [h1, h2]
    · rw [not_not] at h1
      rw [not_not] at h2
      simp [h1, h2]
  · intro u e
    unfold staffExamMutateGetObject
    split_ifs with h
    · rcases h with h | h
      · simp [h]
      · simp [h]
    · push_neg at h
      simp [h.1, h.2]
  · intro u exams pk hall
    have hq : examUpdateQueryset u exams = [] := by
      unfold examUpdateQueryset
      rw [List.filter_eq_nil_iff]
      intro e2 he2
      simp [hall e2 he2]
    unfold examUpdateGetObject
    rw [hq]
    rfl

/-- C4 amended witness: the staff create endpoint admits the instructor
teacher, and the update/delete queryset answers a non-instructor with a
404. -/
theorem exam_management_authorization_witness :
    staffExamCreatePerformCreate instructorW courseW = Except.ok () ∧
    examUpdateGetObject ⟨5, "teacher"⟩ [examW] 20
      = Except.error ApiError.NotFoundError :=
  ⟨(exam_management_authorization_characterization.2.2.1 instructorW courseW).mpr
      (by decide),
   exam_management_authorization_characterization.2.2.2.2 ⟨5, "teacher"⟩ [examW] 20
      (by decide)⟩

/-- C5: the completion check of the view runs on the snapshot read before the
write and nothing makes read-check-write atomic, so under the interleaving
read₁ read₂ write₁ write₂ both concurrent submissions of the fixture
attempt answer 201 with the score — both succeed — whereas under the
serial schedule the second correctly observes `InvalidStateError`. -/
theorem concurrent_double_submit_both_succeed :
    (runSched studentW examW answersW 1 attemptW [Pid.p1, Pid.p2, Pid.p1, Pid.p2]).res1
      = some (Except.ok ⟨some 15, 2, 8, 7⟩) ∧
    (runSched studentW examW answersW 1 attemptW [Pid.p1, Pid.p2, Pid.p1, Pid.p2]).res2
      = some (Except.ok ⟨some 15, 2, 8, 7⟩) ∧
    (runSched studentW examW answersW 1 attemptW [Pid.p1, Pid.p1, Pid.p2, Pid.p2]).res1
      = some (Except.ok ⟨some 15, 2, 8, 7⟩) ∧
    (runSched studentW examW answersW 1 attemptW [Pid.p1, Pid.p1, Pid.p2, Pid.p2]).res2
      = some (Except.error ApiError.InvalidStateError) := by
  refine ⟨by decide, by decide, by decide, by decide⟩

/-- C6: starting an attempt succeeds exactly for students enrolled in the
course of the exam, creating an in-progress (not completed) attempt with a null
score; a non-enrolled user gets `PermissionError`. -/
theorem examAttempt_create_enrollment (u : User) (e : Exam) (nid : Nat) :
    (u.id ∈ e.course.students →
      examAttemptPerformCreate u e nid
        = Except.ok { id := nid, exam_id := e.id, student := u.id,
                      score := none, is_completed := false, submitted_at := none }) ∧
    (u.id ∉ e.course.students →
      examAttemptPerformCreate u e nid = Except.error ApiError.PermissionError) := by
  constructor
  · intro h
    simp [examAttemptPerformCreate, newAttempt, h]
  · intro h
    simp [examAttemptPerformCreate, h]

/-- C6 witness: the enrolled fixture student gets a fresh in-progress
attempt; a stranger is denied. -/
theorem examAttempt_create_enrollment_witness :
    examAttemptPerformCreate studentW examW 7
      = Except.ok ⟨7, 20, 2, none, false, none⟩ ∧
    examAttemptPerformCreate ⟨3, "student"⟩ examW 8
      = Except.error ApiError.PermissionError :=
  ⟨(examAttempt_create_enrollment studentW examW 7).1 (by decide),
   (examAttempt_create_enrollment ⟨3, "student"⟩ examW 8).2 (by decide)⟩

/-- C8: when the exam has no completed attempts (in particular when it has
no attempts at all) the analytics view divides by nothing and returns
0 completed attempts, average score 0 and passing rate 0. -/
theorem staffExamAnalytics_no_completed_attempts (u : User) (e : Exam)
    (attempts : List ExamAttempt)
    (hauth : u.user_type = "teacher") (hinstr : e.course.instructor = u.id)
    (hnc : (attempts.filter (fun a => decide (a.exam_id = e.id))).filter isSubmitted = []) :
    staffExamAnalytics u e attempts
      = Except.ok
          { total_attempts := (attempts.filter (fun a => decide (a.exam_id = e.id))).length,
            completed_attempts := 0, average_score := 0, passing_rate := 0 } := by
  simp [staffExamAnalytics, hauth, hinstr, hnc]

/-- C8 witness: the fixture exam with zero attempts reports all-zero
analytics. -/
theorem staffExamAnalytics_no_completed_attempts_witness :
    staffExamAnalytics instructorW examW []
      = Except.ok { total_attempts := 0, completed_attempts := 0,
                    average_score := 0, passing_rate := 0 } :=
  staffExamAnalytics_no_completed_attempts instructorW examW [] rfl rfl rfl

/-- C9: for an enrolled student, the exam list serializes the exam with
every `is_correct` flag of its choices present in the nested output, exposing
the correct answers to the test-taker. -/
theorem exam_list_exposes_is_correct (u : User) (e : Exam) (exams : List Exam)
    (q : Question) (ch : Choice)
    (hu : u.user_type = "student") (henr : u.id ∈ e.course.students)
    (he : e ∈ exams) (hq : q ∈ e.questions) (hc : ch ∈ q.choices) :
    serializeExam e ∈ examList u exams ∧
    serializeQuestion q ∈ (serializeExam e).questions ∧
    serializeChoice ch ∈ (serializeQuestion q).choices ∧
    (serializeChoice ch).is_correct = ch.is_correct := by
  refine ⟨?_, ?_, ?_, rfl⟩
  · unfold examList examListQueryset
    rw [hu]
    simp only [String.reduceEq, if_false, if_true]
    exact List.mem_map_of_mem _ (List.mem_filter.mpr ⟨he, by simp [henr]⟩)
  · exact List.mem_map_of_mem _ hq
  · exact List.mem_map_of_mem _ hc

/-- C9 witness: the exam list of the enrolled fixture student carries the
correct-choice flag of choice "A" of question 1. -/
theorem exam_list_exposes_is_correct_witness :
    serializeExam examW ∈ examList studentW [examW] ∧
    serializeQuestion q1W ∈ (serializeExam examW).questions ∧
    serializeChoice ⟨100, "A", true⟩ ∈ (serializeQuestion q1W).choices ∧
    (serializeChoice ⟨100, "A", true⟩).is_correct = true :=
  exam_list_exposes_is_correct studentW examW [examW] q1W ⟨100, "A", true⟩
    rfl (by decide) (by decide) (by decide) (by decide)

end AdaptLearning
